import Mathlib

/-!
Shallow embedding of the cinema-hint-server recommendation engine.

Sources embedded here:
* User schema methods (src/unnamed/part_001): addRecommendation,
  checkDailyLimit, addLikedMovie, addDislikedMovie.
* The recommendation attempt loop (src/healthcheck.js
  generateMovieRecommendation, src/routes/movies.js POST /recommend).
* The TMDB cache-aside service (src/services/tmdbCache.js) over the
  Redis manager (src/config/redis.js).
* The feedback backfill flow (src/healthcheck.js POST /feedback).
* The redisRateLimit middleware (src/middleware/cache.js) composed with
  authMiddleware (src/middleware/auth.js).

Machine integers of the JS sources are modelled as Int or Nat; dates are
modelled by the equivalence class of toDateString, an abstract calendar
day number.
-/

/-- One entry of user.recommendationHistory (src/unnamed/part_001, schema
field recommendationHistory): movieId, title, accepted (null for a fresh
recommendation, hence Option Bool), and the mongoose timestamp default. -/
structure RecEntry where
  movieId : Int
  title : String
  accepted : Option Bool
  timestamp : Int
  deriving Repr, DecidableEq

/-- Stable insertion into a list kept sorted by descending timestamp.
Models the comparator (a, b) => b.timestamp - a.timestamp of
Array.prototype.sort in addRecommendation: the new element is placed
before the first strictly older element. -/
def insTsDesc (e : RecEntry) : List RecEntry → List RecEntry
  | [] => [e]
  | x :: xs => if x.timestamp < e.timestamp then e :: x :: xs else x :: insTsDesc e xs

/-- Sort by descending timestamp (stable insertion sort, modelling the
stable Array.prototype.sort with comparator b.timestamp - a.timestamp). -/
def sortTsDesc : List RecEntry → List RecEntry
  | [] => []
  | x :: xs => insTsDesc x (sortTsDesc xs)

/-- userSchema.methods.addRecommendation (src/unnamed/part_001 lines
212-236): duplicate movieId is a no-op returning false; otherwise the
entry (with timestamp defaulted to now by the schema) is pushed, the
history re-sorted newest first and truncated to the 100 most recent;
returns true. -/
def addRecommendation (hist : List RecEntry) (e : RecEntry) : Bool × List RecEntry :=
  if hist.any (fun r => r.movieId == e.movieId) then
    (false, hist)
  else
    let pushed := hist ++ [e]
    let sorted := sortTsDesc pushed
    (true, sorted.take 100)

/-- The dailyRecommendations subdocument of the user schema: a count and
the stored period date (abstract calendar day, the equivalence class of
Date.prototype.toDateString). -/
structure DailyRec where
  count : Nat
  date : Nat
  deriving Repr, DecidableEq

/-- userSchema.methods.checkDailyLimit (src/unnamed/part_001 lines
239-249): if today differs from the stored date (by calendar day), reset
count to 0 and advance the date; return whether count < 5. The count is
not incremented here. -/
def checkDailyLimit (today : Nat) (d : DailyRec) : Bool × DailyRec :=
  let d' := if today ≠ d.date then { count := 0, date := today } else d
  (d'.count < 5, d')

section SortLemmas

/-- Sortedness by descending timestamp (newest first). -/
abbrev SortedTsDesc (l : List RecEntry) : Prop :=
  l.Pairwise (fun a b => b.timestamp ≤ a.timestamp)

/-- Strict sortedness by descending timestamp. -/
abbrev StrictSortedTsDesc (l : List RecEntry) : Prop :=
  l.Pairwise (fun a b => b.timestamp < a.timestamp)

theorem insTsDesc_perm (e : RecEntry) (l : List RecEntry) :
    (insTsDesc e l).Perm (e :: l) := by
  induction l with
  | nil => simp [insTsDesc]
  | cons x xs ih =>
    simp only [insTsDesc]
    by_cases h : x.timestamp < e.timestamp
    · simp [h]
    · simp only [h, if_false]
      exact (List.Perm.cons x ih).trans (List.Perm.swap e x xs)

theorem sortTsDesc_perm (l : List RecEntry) : (sortTsDesc l).Perm l := by
  induction l with
  | nil => simp [sortTsDesc]
  | cons x xs ih =>
    exact (insTsDesc_perm x (sortTsDesc xs)).trans (List.Perm.cons x ih)

theorem insTsDesc_sorted {l : List RecEntry} (e : RecEntry) (hl : SortedTsDesc l) :
    SortedTsDesc (insTsDesc e l) := by
  induction l with
  | nil => simp [insTsDesc, SortedTsDesc]
  | cons x xs ih =>
    rcases (List.pairwise_cons.mp hl) with ⟨hx, hxs⟩
    simp only [insTsDesc]
    by_cases h : x.timestamp < e.timestamp
    · simp only [h, if_true]
      refine List.pairwise_cons.mpr ⟨?_, hl⟩
      intro b hb
      rcases List.mem_cons.mp hb with rfl | hb
      · exact le_of_lt h
      · exact (hx b hb).trans (le_of_lt h)
    · simp only [h, if_false]
      refine List.pairwise_cons.mpr ⟨?_, ih hxs⟩
      intro b hb
      have hb' := (insTsDesc_perm e xs).mem_iff.mp hb
      rcases List.mem_cons.mp hb' with rfl | hb'
      · exact le_of_not_lt h
      · exact hx b hb'

theorem sortTsDesc_sorted (l : List RecEntry) : SortedTsDesc (sortTsDesc l) := by
  induction l with
  | nil => simp [sortTsDesc, SortedTsDesc]
  | cons x xs ih => exact insTsDesc_sorted x ih

/-- In a list sorted newest first that is a permutation of l ++ [e] where
e is strictly newer than every element of l, e is the head. -/
theorem sorted_head_of_strict_max {l r : List RecEntry} {e : RecEntry}
    (hperm : r.Perm (l ++ [e])) (hsort : SortedTsDesc r)
    (hmax : ∀ x ∈ l, x.timestamp < e.timestamp) :
    ∃ t, r = e :: t := by
  have he : e ∈ r := hperm.mem_iff.mpr (by simp)
  cases r with
  | nil => simp at he
  | cons a t =>
    refine ⟨t, ?_⟩
    have ha : a ∈ l ++ [e] := hperm.mem_iff.mp (List.mem_cons_self a t)
    rcases List.mem_append.mp ha with hal | hae
    · -- a ∈ l would make a strictly older than e, contradicting sortedness
      exfalso
      have hlt : a.timestamp < e.timestamp := hmax a hal
      rcases List.mem_cons.mp he with rfl | het
      · exact lt_irrefl _ hlt
      · have := (List.pairwise_cons.mp hsort).1 e het
        exact absurd (lt_of_le_of_lt this hlt) (lt_irrefl _)
    · simp only [List.mem_singleton] at hae
      rw [hae]

instance : IsAntisymm RecEntry (fun a b => b.timestamp < a.timestamp) :=
  ⟨fun a b h1 h2 => absurd (h1.trans h2) (lt_irrefl _)⟩

/-- A permutation of a list with pairwise distinct timestamps that is
sorted newest first is strictly sorted. -/
theorem strict_of_sorted_of_nodup {r s : List RecEntry}
    (hperm : r.Perm s) (hsort : SortedTsDesc r)
    (hnd : (s.map RecEntry.timestamp).Nodup) :
    StrictSortedTsDesc r := by
  have hndr : (r.map RecEntry.timestamp).Nodup :=
    (hperm.map RecEntry.timestamp).nodup_iff.mpr hnd
  have hne : r.Pairwise (fun a b => a.timestamp ≠ b.timestamp) :=
    (List.pairwise_map.mp hndr)
  exact (hsort.and hne).imp (fun h => lt_of_le_of_ne h.1 (Ne.symm h.2))

end SortLemmas

section HistoryClaims

theorem addRecommendation_of_dup {hist : List RecEntry} {e : RecEntry}
    (h : hist.any (fun r => r.movieId == e.movieId) = true) :
    addRecommendation hist e = (false, hist) := by
  simp [addRecommendation, h]

theorem addRecommendation_snd_of_false {hist : List RecEntry} {e : RecEntry}
    (h : (addRecommendation hist e).1 = false) :
    (addRecommendation hist e).2 = hist := by
  by_cases hd : hist.any (fun r => r.movieId == e.movieId) = true
  · simp [addRecommendation, hd]
  · simp [addRecommendation, hd] at h

theorem addRecommendation_perm_of_fresh {hist : List RecEntry} {e : RecEntry}
    (h : hist.any (fun r => r.movieId == e.movieId) = false) :
    (addRecommendation hist e).2 = (sortTsDesc (hist ++ [e])).take 100 := by
  simp [addRecommendation, h]

/-- C2: a call whose movieId is already present returns false and leaves
the stored history (contents and order) unchanged; a call with a fresh
movieId returns true and, provided the defaulted timestamp of the new
entry is newer than every stored timestamp, the entry is present in the
stored history afterwards; uniqueness of movieId within the history is
preserved by every call. -/
theorem claim_C2_addRecommendation_dedup (hist : List RecEntry) (e : RecEntry) :
    (hist.any (fun r => r.movieId == e.movieId) = true →
      addRecommendation hist e = (false, hist))
    ∧ (hist.any (fun r => r.movieId == e.movieId) = false →
      (addRecommendation hist e).1 = true
      ∧ ((∀ x ∈ hist, x.timestamp < e.timestamp) → e ∈ (addRecommendation hist e).2))
    ∧ ((hist.map RecEntry.movieId).Nodup →
      (((addRecommendation hist e).2.map RecEntry.movieId)).Nodup) := by
  refine ⟨fun h => addRecommendation_of_dup h, fun h => ⟨?_, fun hmax => ?_⟩, fun hnd => ?_⟩
  · simp [addRecommendation, h]
  · rw [addRecommendation_perm_of_fresh h]
    obtain ⟨t, ht⟩ := sorted_head_of_strict_max (sortTsDesc_perm (hist ++ [e]))
      (sortTsDesc_sorted (hist ++ [e])) hmax
    rw [ht]
    simp [List.take_cons]
  · by_cases hd : hist.any (fun r => r.movieId == e.movieId) = true
    · rw [addRecommendation_of_dup hd]
      exact hnd
    · have hfresh : hist.any (fun r => r.movieId == e.movieId) = false :=
        Bool.eq_false_iff.mpr hd
      rw [addRecommendation_perm_of_fresh hfresh]
      have hnotmem : e.movieId ∉ hist.map RecEntry.movieId := by
        intro hc
        rcases List.mem_map.mp hc with ⟨r, hr, hrid⟩
        have : hist.any (fun r => r.movieId == e.movieId) = true :=
          List.any_eq_true.mpr ⟨r, hr, by simp [hrid]⟩
        simp [hfresh] at this
      have hpush : ((hist ++ [e]).map RecEntry.movieId).Nodup := by
        simp only [List.map_append, List.map_cons, List.map_nil]
        exact List.Nodup.append hnd (List.nodup_singleton _)
          (by
            intro a ha hb
            simp only [List.mem_singleton] at hb
            exact hnotmem (hb ▸ ha))
      have hsortnd : ((sortTsDesc (hist ++ [e])).map RecEntry.movieId).Nodup :=
        (((sortTsDesc_perm (hist ++ [e])).map RecEntry.movieId).nodup_iff).mpr hpush
      exact hsortnd.sublist (List.Sublist.map _ (List.take_sublist _ _))

/-- Witness for C2 at concrete inputs: a duplicate insert is a no-op
returning false, a fresh insert returns true and lands in the history,
and id-uniqueness is preserved. -/
theorem claim_C2_addRecommendation_dedup_witness :
    (addRecommendation [⟨7, "Heat", none, 10⟩] ⟨7, "Heat", none, 20⟩
      = (false, [⟨7, "Heat", none, 10⟩]))
    ∧ ((addRecommendation [⟨7, "Heat", none, 10⟩] ⟨9, "Ronin", none, 20⟩).1 = true
      ∧ (⟨9, "Ronin", none, 20⟩ : RecEntry)
          ∈ (addRecommendation [⟨7, "Heat", none, 10⟩] ⟨9, "Ronin", none, 20⟩).2)
    ∧ (((addRecommendation [⟨7, "Heat", none, 10⟩] ⟨9, "Ronin", none, 20⟩).2.map
        RecEntry.movieId)).Nodup := by
  refine ⟨(claim_C2_addRecommendation_dedup [⟨7, "Heat", none, 10⟩] ⟨7, "Heat", none, 20⟩).1
      (by decide),
    ⟨((claim_C2_addRecommendation_dedup [⟨7, "Heat", none, 10⟩] ⟨9, "Ronin", none, 20⟩).2.1
      (by decide)).1,
     ((claim_C2_addRecommendation_dedup [⟨7, "Heat", none, 10⟩] ⟨9, "Ronin", none, 20⟩).2.1
      (by decide)).2 (by decide)⟩,
    (claim_C2_addRecommendation_dedup [⟨7, "Heat", none, 10⟩] ⟨9, "Ronin", none, 20⟩).2.2
      (by decide)⟩

/-- C3: calling checkDailyLimit on a calendar day different from the
stored period date resets the count to 0, advances the date, and reports
the user as under the ceiling of 5, without incrementing — regardless of
the prior count value. -/
theorem claim_C3_daily_quota_rollover (d : DailyRec) (today : Nat)
    (h : today ≠ d.date) :
    checkDailyLimit today d = (true, { count := 0, date := today }) := by
  simp [checkDailyLimit, h]

/-- Witness for C3: a user at the ceiling (count = 5) with yesterday as
stored date is reported under the limit today, with the count reset. -/
theorem claim_C3_daily_quota_rollover_witness :
    checkDailyLimit 1 { count := 5, date := 0 } = (true, { count := 0, date := 1 }) :=
  claim_C3_daily_quota_rollover { count := 5, date := 0 } 1 (by decide)

theorem sortedTsDesc_take (n : Nat) {l : List RecEntry} (h : SortedTsDesc l) :
    SortedTsDesc (l.take n) :=
  h.sublist (List.take_sublist n l)

/-- C5: the history bound. The size never exceeds 100 (a fresh insert
truncates to 100; a duplicate call leaves the history unchanged); a
fresh insert always leaves the history sorted newest first, and a
duplicate call preserves sortedness; inserting a 101st unique
recommendation whose timestamp is newer than all stored ones into a
strictly newest-first history of 100 entries keeps the newest 100, i.e.
evicts exactly the oldest entry. -/
theorem claim_C5_history_bound (hist : List RecEntry) (e : RecEntry) :
    (hist.length ≤ 100 → (addRecommendation hist e).2.length ≤ 100)
    ∧ (hist.any (fun r => r.movieId == e.movieId) = false →
        SortedTsDesc (addRecommendation hist e).2)
    ∧ (SortedTsDesc hist → SortedTsDesc (addRecommendation hist e).2)
    ∧ (StrictSortedTsDesc hist → hist.length = 100 →
        (∀ x ∈ hist, x.timestamp < e.timestamp) →
        hist.any (fun r => r.movieId == e.movieId) = false →
        (addRecommendation hist e).2 = e :: hist.take 99) := by
  refine ⟨fun hlen => ?_, fun hfresh => ?_, fun hs => ?_, fun hstrict hlen hmax hfresh => ?_⟩
  · by_cases hd : hist.any (fun r => r.movieId == e.movieId) = true
    · rw [addRecommendation_of_dup hd]; exact hlen
    · rw [addRecommendation_perm_of_fresh (Bool.eq_false_iff.mpr hd)]
      simpa using Nat.min_le_left 100 _
  · rw [addRecommendation_perm_of_fresh hfresh]
    exact sortedTsDesc_take 100 (sortTsDesc_sorted _)
  · by_cases hd : hist.any (fun r => r.movieId == e.movieId) = true
    · rw [addRecommendation_of_dup hd]; exact hs
    · rw [addRecommendation_perm_of_fresh (Bool.eq_false_iff.mpr hd)]
      exact sortedTsDesc_take 100 (sortTsDesc_sorted _)
  · rw [addRecommendation_perm_of_fresh hfresh]
    have hstrict' : StrictSortedTsDesc (e :: hist) :=
      List.pairwise_cons.mpr ⟨hmax, hstrict⟩
    have hnd : ((e :: hist).map RecEntry.timestamp).Nodup :=
      List.pairwise_map.mpr (hstrict'.imp (fun h => ne_of_gt h))
    have hperm2 : (sortTsDesc (hist ++ [e])).Perm (e :: hist) :=
      (sortTsDesc_perm _).trans (List.perm_append_singleton e hist)
    have hsorted1 : StrictSortedTsDesc (sortTsDesc (hist ++ [e])) :=
      strict_of_sorted_of_nodup hperm2 (sortTsDesc_sorted _) hnd
    have heq : sortTsDesc (hist ++ [e]) = e :: hist :=
      List.eq_of_perm_of_sorted hperm2 hsorted1 hstrict'
    rw [heq, List.take_succ_cons]

end HistoryClaims

/-- A concrete strictly newest-first history of 100 distinct entries,
used to witness the eviction clause of C5. -/
def fullHist100 : List RecEntry :=
  (List.range 100).map (fun i => ⟨Int.ofNat i, "m", none, Int.ofNat (100 - i)⟩)

/-- Witness for C5: on the concrete 100-entry history, inserting a fresh
101st recommendation with a newer timestamp keeps the newest 100 entries
and evicts exactly the oldest; the bound 100 is respected. -/
theorem claim_C5_history_bound_witness :
    ((addRecommendation fullHist100 ⟨500, "new", none, 200⟩).2.length ≤ 100)
    ∧ ((addRecommendation fullHist100 ⟨500, "new", none, 200⟩).2
        = ⟨500, "new", none, 200⟩ :: fullHist100.take 99) := by
  refine ⟨(claim_C5_history_bound fullHist100 ⟨500, "new", none, 200⟩).1 (by decide),
    (claim_C5_history_bound fullHist100 ⟨500, "new", none, 200⟩).2.2.2
      (by decide) (by decide) (by decide) (by decide)⟩

section GenerationLoop

/-- Outcome of one attempt of the generation loop: the OpenAI reply
failed to parse as JSON, parsed but missed the required title/reason
fields, resolved to no TMDB movie, threw before reaching the commit
block (an openai or searchMovieOnTMDB rejection, caught by the
per-attempt try/catch), or resolved to a concrete TMDB movie; in the
resolved case saveOk records whether the user.save() issued by a commit
in this attempt would succeed — a rejected save is caught by the same
per-attempt catch. -/
inductive AttemptOutcome where
  | parseFail
  | invalidStructure
  | noTmdbMatch
  | apiError
  | resolved (tmdbId : Int) (title : String) (saveOk : Bool)
  deriving Repr, DecidableEq

/-- The in-memory user state touched by generateMovieRecommendation:
the recommendation history and the daily quota count. -/
structure GenUser where
  history : List RecEntry
  dailyCount : Nat
  deriving Repr, DecidableEq

/-- Result of the generation operation: the recommendation returned to
the caller (none models the 404 not-found outcome), the final in-memory
user state, whether a user.save() succeeded (a rejected save persists
nothing, so the persisted state is the pre-request state unless saved is
true, in which case it is the returned user state), and — as
specification instrumentation — how many insert-and-increment commit
blocks were executed, each followed by a save attempt. -/
structure GenResult where
  recommendation : Option (Int × String)
  user : GenUser
  saved : Bool
  commits : Nat
  deriving Repr, DecidableEq

/-- The while loop of generateMovieRecommendation (src/healthcheck.js
lines 409-510), the live recommendation loop: the mounted router calls
this function (the loop inlined in the legacy POST /recommend of
src/routes/movies.js lines 287-381 has no per-attempt try/catch — a
thrown provider or save error there aborts the whole request with a 500
— and is the excluded legacy duplicate, so it is not embedded here).
The oracle gives the outcome of attempt i, indexed like the attempts
counter of the source; fuel is the number of attempts still allowed;
now is the timestamp the schema assigns to a fresh history entry. On a
resolved movie not already in the history, addRecommendation is
invoked, and if it reports a new insertion the quota count is
incremented and user.save() is awaited: on success the recommendation
is returned; on rejection the per-attempt catch swallows the error,
the attempt is consumed, and the loop continues with the user already
mutated in memory (history inserted, count incremented). All failure
outcomes consume the attempt and continue. -/
def generateAux (oracle : Nat → AttemptOutcome) (now : Int) :
    Nat → Nat → GenUser → GenResult
  | _, 0, u => { recommendation := none, user := u, saved := false, commits := 0 }
  | attempts, fuel + 1, u =>
    match oracle attempts with
    | .resolved tmdbId title saveOk =>
      if u.history.any (fun r => r.movieId == tmdbId) then
        generateAux oracle now (attempts + 1) fuel u
      else
        let inserted := addRecommendation u.history ⟨tmdbId, title, none, now⟩
        if inserted.1 then
          let u' : GenUser := { history := inserted.2, dailyCount := u.dailyCount + 1 }
          match saveOk with
          | true =>
            { recommendation := some (tmdbId, title), user := u', saved := true,
              commits := 1 }
          | false =>
            let res := generateAux oracle now (attempts + 1) fuel u'
            { recommendation := res.recommendation, user := res.user,
              saved := res.saved, commits := res.commits + 1 }
        else
          generateAux oracle now (attempts + 1) fuel
            { history := inserted.2, dailyCount := u.dailyCount }
    | _ => generateAux oracle now (attempts + 1) fuel u

/-- generateMovieRecommendation (src/healthcheck.js line 409):
maxAttempts is 5 in alternative mode and 3 otherwise; the loop starts at
attempts = 0. -/
def generateMovieRecommendation (oracle : Nat → AttemptOutcome) (now : Int)
    (isAlternative : Bool) (u : GenUser) : GenResult :=
  generateAux oracle now 0 (if isAlternative then 5 else 3) u

/-- An attempt outcome of the kinds the claim enumerates as failing:
parsing or resolution failure, or a movie already recommended. A
rejected save is not among them — it can only occur after a fresh
resolved movie reached the commit block. -/
def attemptFails (hist : List RecEntry) : AttemptOutcome → Prop
  | .resolved tmdbId _ _ => hist.any (fun r => r.movieId == tmdbId) = true
  | _ => True

instance (hist : List RecEntry) (o : AttemptOutcome) : Decidable (attemptFails hist o) := by
  cases o <;> simp only [attemptFails] <;> infer_instance

theorem generateAux_of_allFail (oracle : Nat → AttemptOutcome) (now : Int)
    (fuel : Nat) :
    ∀ (attempts : Nat) (u : GenUser),
    (∀ i, attempts ≤ i → i < attempts + fuel → attemptFails u.history (oracle i)) →
    generateAux oracle now attempts fuel u
      = { recommendation := none, user := u, saved := false, commits := 0 } := by
  induction fuel with
  | zero => intro attempts u _; rfl
  | succ fuel ih =>
    intro attempts u h
    have h0 := h attempts (le_refl _) (by omega)
    unfold generateAux
    cases ho : oracle attempts with
    | resolved tmdbId title saveOk =>
      rw [ho] at h0
      simp only [attemptFails] at h0
      simp only [h0, if_true]
      exact ih (attempts + 1) u (fun i h1 h2 => h i (by omega) (by omega))
    | parseFail =>
      simp only
      exact ih (attempts + 1) u (fun i h1 h2 => h i (by omega) (by omega))
    | invalidStructure =>
      simp only
      exact ih (attempts + 1) u (fun i h1 h2 => h i (by omega) (by omega))
    | noTmdbMatch =>
      simp only
      exact ih (attempts + 1) u (fun i h1 h2 => h i (by omega) (by omega))
    | apiError =>
      simp only
      exact ih (attempts + 1) u (fun i h1 h2 => h i (by omega) (by omega))

theorem generateAux_invariants (oracle : Nat → AttemptOutcome) (now : Int)
    (fuel : Nat) :
    ∀ (attempts : Nat) (u : GenUser),
    ((generateAux oracle now attempts fuel u).user.dailyCount
        = u.dailyCount + (generateAux oracle now attempts fuel u).commits)
    ∧ ((generateAux oracle now attempts fuel u).saved
        = (generateAux oracle now attempts fuel u).recommendation.isSome)
    ∧ ((generateAux oracle now attempts fuel u).commits ≤ fuel)
    ∧ ((generateAux oracle now attempts fuel u).recommendation.isSome = true →
        1 ≤ (generateAux oracle now attempts fuel u).commits) := by
  induction fuel with
  | zero =>
    intro attempts u
    refine ⟨(Nat.add_zero _).symm, rfl, Nat.le_refl 0, fun hcon => ?_⟩
    simp [generateAux] at hcon
  | succ fuel ih =>
    intro attempts u
    unfold generateAux
    cases ho : oracle attempts with
    | resolved tmdbId title saveOk =>
      by_cases hd : u.history.any (fun r => r.movieId == tmdbId) = true
      · simp only [hd, if_true]
        obtain ⟨h1, h2, h3, h4⟩ := ih (attempts + 1) u
        exact ⟨h1, h2, h3.trans (Nat.le_succ _), h4⟩
      · simp only [Bool.eq_false_iff.mpr hd, Bool.false_eq_true, if_false]
        by_cases hnew : (addRecommendation u.history ⟨tmdbId, title, none, now⟩).1 = true
        · simp only [hnew, if_true]
          cases saveOk with
          | true => exact ⟨rfl, rfl, Nat.succ_le_succ (Nat.zero_le fuel), fun _ => le_refl 1⟩
          | false =>
            obtain ⟨h1, h2, h3, h4⟩ := ih (attempts + 1)
              { history := (addRecommendation u.history ⟨tmdbId, title, none, now⟩).2,
                dailyCount := u.dailyCount + 1 }
            refine ⟨?_, ?_, ?_, fun _ => ?_⟩
            · have h1' : (generateAux oracle now (attempts + 1) fuel
                  { history := (addRecommendation u.history ⟨tmdbId, title, none, now⟩).2,
                    dailyCount := u.dailyCount + 1 }).user.dailyCount
                  = (u.dailyCount + 1) + (generateAux oracle now (attempts + 1) fuel
                  { history := (addRecommendation u.history ⟨tmdbId, title, none, now⟩).2,
                    dailyCount := u.dailyCount + 1 }).commits := h1
              show (generateAux oracle now (attempts + 1) fuel
                  { history := (addRecommendation u.history ⟨tmdbId, title, none, now⟩).2,
                    dailyCount := u.dailyCount + 1 }).user.dailyCount
                = u.dailyCount + ((generateAux oracle now (attempts + 1) fuel
                  { history := (addRecommendation u.history ⟨tmdbId, title, none, now⟩).2,
                    dailyCount := u.dailyCount + 1 }).commits + 1)
              omega
            · exact h2
            · exact Nat.succ_le_succ h3
            · exact Nat.succ_le_succ (Nat.zero_le _)
        · have hfalse : (addRecommendation u.history ⟨tmdbId, title, none, now⟩).1 = false :=
            Bool.eq_false_iff.mpr hnew
          simp only [hfalse, Bool.false_eq_true, if_false]
          have huser :
              ({ history := (addRecommendation u.history ⟨tmdbId, title, none, now⟩).2,
                 dailyCount := u.dailyCount } : GenUser) = u := by
            rw [addRecommendation_snd_of_false hfalse]
          rw [huser]
          obtain ⟨h1, h2, h3, h4⟩ := ih (attempts + 1) u
          exact ⟨h1, h2, h3.trans (Nat.le_succ _), h4⟩
    | parseFail =>
      obtain ⟨h1, h2, h3, h4⟩ := ih (attempts + 1) u
      exact ⟨h1, h2, h3.trans (Nat.le_succ _), h4⟩
    | invalidStructure =>
      obtain ⟨h1, h2, h3, h4⟩ := ih (attempts + 1) u
      exact ⟨h1, h2, h3.trans (Nat.le_succ _), h4⟩
    | noTmdbMatch =>
      obtain ⟨h1, h2, h3, h4⟩ := ih (attempts + 1) u
      exact ⟨h1, h2, h3.trans (Nat.le_succ _), h4⟩
    | apiError =>
      obtain ⟨h1, h2, h3, h4⟩ := ih (attempts + 1) u
      exact ⟨h1, h2, h3.trans (Nat.le_succ _), h4⟩

/-- The environment of the C1 counterexample: attempt 0 resolves fresh
movie 9 but its save rejects (caught by the per-attempt catch); attempt
1 resolves fresh movie 11 and its save succeeds. -/
def doubleCommitOracle : Nat → AttemptOutcome :=
  fun i => if i == 0 then .resolved 9 "Ronin" false else .resolved 11 "Alien" true

/-- C1 counterexample: the claim asserts the quota counter is
incremented exactly once, only together with the history insertion and
the save, when a new non-duplicate recommendation is committed. On this
concrete run one recommendation is committed and returned, yet the
saved user state carries the quota counter incremented twice and both
inserted history entries: attempt 0 inserted movie 9 and incremented
the count before its save rejected, the catch swallowed the rejection
with the user already mutated in memory, and the successful save of
attempt 1 persisted both increments. -/
theorem claim_C1_counterexample_double_increment :
    ((generateMovieRecommendation doubleCommitOracle 50 false
        { history := [], dailyCount := 0 }).recommendation = some (11, "Alien"))
    ∧ ((generateMovieRecommendation doubleCommitOracle 50 false
        { history := [], dailyCount := 0 }).user.dailyCount = 2)
    ∧ ((generateMovieRecommendation doubleCommitOracle 50 false
        { history := [], dailyCount := 0 }).user.history.length = 2)
    ∧ ((generateMovieRecommendation doubleCommitOracle 50 false
        { history := [], dailyCount := 0 }).saved = true) := by decide

/-- C1 amended: if every one of the maxAttempts attempts (3, or 5 in
alternative mode) fails in the enumerated ways — parse failure, invalid
structure, no TMDB match, a pre-commit thrown error, or resolution to a
movie already in the history — the operation returns the not-found
outcome with the user state exactly as before, nothing saved and no
commit executed. In general the quota counter is incremented exactly
once per commit block (each commit block being one history insertion
reported new followed by a save attempt, so the count never moves
without its insertion); at most maxAttempts commit blocks run; a
returned recommendation comes from a successful save of at least one
commit block, and when no recommendation is returned no save succeeded,
so the persisted state is the pre-request state — but a rejected save
inside an attempt is caught with the in-memory insertion and increment
left in place, so one returned recommendation may persist several
accumulated increments. -/
theorem claim_C1_attempt_loop_amended
    (oracle : Nat → AttemptOutcome) (now : Int) (isAlternative : Bool) (u : GenUser) :
    ((∀ i < (if isAlternative then 5 else 3), attemptFails u.history (oracle i)) →
      generateMovieRecommendation oracle now isAlternative u
        = { recommendation := none, user := u, saved := false, commits := 0 })
    ∧ ((generateMovieRecommendation oracle now isAlternative u).user.dailyCount
        = u.dailyCount + (generateMovieRecommendation oracle now isAlternative u).commits)
    ∧ ((generateMovieRecommendation oracle now isAlternative u).saved
        = (generateMovieRecommendation oracle now isAlternative u).recommendation.isSome)
    ∧ ((generateMovieRecommendation oracle now isAlternative u).commits
        ≤ (if isAlternative then 5 else 3))
    ∧ (∀ tmdbId title,
        (generateMovieRecommendation oracle now isAlternative u).recommendation
          = some (tmdbId, title) →
        1 ≤ (generateMovieRecommendation oracle now isAlternative u).commits
        ∧ (generateMovieRecommendation oracle now isAlternative u).saved = true) := by
  obtain ⟨h1, h2, h3, h4⟩ := generateAux_invariants oracle now
    (if isAlternative then 5 else 3) 0 u
  refine ⟨fun h => ?_, h1, h2, h3, fun tmdbId title hsome => ?_⟩
  · exact generateAux_of_allFail oracle now _ 0 u (fun i hi1 hi2 => h i (by omega))
  · have hisome : (generateMovieRecommendation oracle now isAlternative u).recommendation.isSome
        = true := by
      rw [hsome]; rfl
    exact ⟨h4 hisome, h2.trans hisome⟩

/-- Witness for C1 amended: with a provider that always fails to parse,
the operation exhausts its 3 attempts and returns the not-found outcome
with the user untouched, nothing saved and no commit; with a provider
that resolves a fresh movie whose save succeeds, at least one commit
ran and the user was saved. -/
theorem claim_C1_attempt_loop_amended_witness :
    (generateMovieRecommendation (fun _ => AttemptOutcome.parseFail) 50 false
        { history := [⟨7, "Heat", none, 10⟩], dailyCount := 2 }
      = { recommendation := none,
          user := { history := [⟨7, "Heat", none, 10⟩], dailyCount := 2 },
          saved := false, commits := 0 })
    ∧ (1 ≤ (generateMovieRecommendation (fun _ => AttemptOutcome.resolved 9 "Ronin" true)
          50 false { history := [], dailyCount := 0 }).commits
       ∧ (generateMovieRecommendation (fun _ => AttemptOutcome.resolved 9 "Ronin" true)
          50 false { history := [], dailyCount := 0 }).saved = true) :=
  ⟨(claim_C1_attempt_loop_amended (fun _ => AttemptOutcome.parseFail) 50 false
      { history := [⟨7, "Heat", none, 10⟩], dailyCount := 2 }).1 (by decide),
   (claim_C1_attempt_loop_amended (fun _ => AttemptOutcome.resolved 9 "Ronin" true) 50 false
      { history := [], dailyCount := 0 }).2.2.2.2 9 "Ronin" (by decide)⟩

end GenerationLoop

section PreferenceStore

/-- A movie entry stored in a genre bucket (the subdocument of the
likedMovies / dislikedMovies maps: tmdbId, title, genres as names). -/
structure PrefMovie where
  tmdbId : Int
  title : String
  genres : List String
  deriving Repr, DecidableEq

/-- A genre map (mongoose Map of genre name to array of PrefMovie),
modelled as an association list in Map insertion order. -/
abbrev GenreMap := List (String × List PrefMovie)

/-- One element of movie.genres as received by addLikedMovie or
addDislikedMovie: either already a genre name string or a numeric TMDB
genre id. -/
inductive GenreInput where
  | name (s : String)
  | ident (n : Nat)
  deriving Repr, DecidableEq

/-- The hard-coded TMDB genre id to name table of addLikedMovie and
addDislikedMovie (src/unnamed/part_001); unknown ids map to null and are
filtered out. -/
def genreIdToName : Nat → Option String
  | 28 => some "action"
  | 12 => some "adventure"
  | 16 => some "animation"
  | 35 => some "comedy"
  | 80 => some "crime"
  | 99 => some "documentary"
  | 18 => some "drama"
  | 10751 => some "family"
  | 14 => some "fantasy"
  | 36 => some "history"
  | 27 => some "horror"
  | 10402 => some "music"
  | 9648 => some "mystery"
  | 10749 => some "romance"
  | 878 => some "scifi"
  | 10770 => some "tvmovie"
  | 53 => some "thriller"
  | 10752 => some "war"
  | 37 => some "western"
  | _ => none

/-- ASCII lower-casing of a character, modelling
String.prototype.toLowerCase on the ASCII genre names this code handles. -/
def jsCharLower (c : Char) : Char :=
  if 65 ≤ c.toNat ∧ c.toNat ≤ 90 then Char.ofNat (c.toNat + 32) else c

/-- String.prototype.toLowerCase restricted to ASCII. -/
def jsToLowerCase (s : String) : String :=
  ⟨s.data.map jsCharLower⟩

/-- Normalization of one genre input: a string is lower-cased and used
as is; a numeric id is translated through the table. -/
def normalizeGenre : GenreInput → Option String
  | .name s => some (jsToLowerCase s)
  | .ident n => genreIdToName n

/-- The genreNames list computed at the top of addLikedMovie and
addDislikedMovie: map then filter(Boolean). -/
def genreNamesOf (gs : List GenreInput) : List String :=
  gs.filterMap normalizeGenre

/-- The removal loop over the opposite map: every bucket is filtered of
the given tmdbId, and buckets that become empty are deleted. -/
def removeMovieEverywhere (tmdbId : Int) (m : GenreMap) : GenreMap :=
  (m.map (fun kv => (kv.1, kv.2.filter (fun x => x.tmdbId != tmdbId)))).filter
    (fun kv => !kv.2.isEmpty)

/-- The per-bucket update: replace the first entry with the same tmdbId
(findIndex followed by assignment) or push at the end. -/
def upsertMovie (mv : PrefMovie) : List PrefMovie → List PrefMovie
  | [] => [mv]
  | x :: xs => if x.tmdbId == mv.tmdbId then mv :: xs else x :: upsertMovie mv xs

/-- Adding the movie to one genre bucket: if the key exists its bucket is
upserted, otherwise a fresh singleton bucket is appended (Map.set
inserts new keys at the end of the iteration order). -/
def addMovieToGenre (mv : PrefMovie) (m : GenreMap) (g : String) : GenreMap :=
  if m.any (fun kv => kv.1 == g) then
    m.map (fun kv => if kv.1 == g then (kv.1, upsertMovie mv kv.2) else kv)
  else
    m ++ [(g, [mv])]

/-- The preferences subdocument of the user schema. -/
structure PrefUser where
  likedMovies : GenreMap
  dislikedMovies : GenreMap
  deriving Repr, DecidableEq

/-- The InputMovie shape consumed by addLikedMovie and addDislikedMovie
(fields used by the genre bookkeeping). -/
structure InputMovie where
  tmdbId : Int
  title : String
  genres : List GenreInput
  deriving Repr, DecidableEq

/-- userSchema.methods.addLikedMovie (src/unnamed/part_001 lines 79-141):
normalize the genres, remove the movie from every bucket of
dislikedMovies (deleting emptied buckets), then insert-or-replace the
movie data into the likedMovies bucket of each recognized genre. -/
def addLikedMovie (u : PrefUser) (movie : InputMovie) : PrefUser :=
  let genreNames := genreNamesOf movie.genres
  let dislikedMovies := removeMovieEverywhere movie.tmdbId u.dislikedMovies
  let movieData : PrefMovie :=
    { tmdbId := movie.tmdbId, title := movie.title, genres := genreNames }
  let likedMovies := genreNames.foldl (addMovieToGenre movieData) u.likedMovies
  { likedMovies := likedMovies, dislikedMovies := dislikedMovies }

/-- userSchema.methods.addDislikedMovie (src/unnamed/part_001 lines
144-208): the mirror image of addLikedMovie. -/
def addDislikedMovie (u : PrefUser) (movie : InputMovie) : PrefUser :=
  let genreNames := genreNamesOf movie.genres
  let likedMovies := removeMovieEverywhere movie.tmdbId u.likedMovies
  let movieData : PrefMovie :=
    { tmdbId := movie.tmdbId, title := movie.title, genres := genreNames }
  let dislikedMovies := genreNames.foldl (addMovieToGenre movieData) u.dislikedMovies
  { likedMovies := likedMovies, dislikedMovies := dislikedMovies }

/-- Whether any bucket of the map contains an entry with the given id
(the hasMovieInMap helper of the schema). -/
def mapHasMovie (m : GenreMap) (tmdbId : Int) : Bool :=
  m.any (fun kv => kv.2.any (fun x => x.tmdbId == tmdbId))

/-- Whether the bucket of genre g contains an entry with the given id. -/
def inGenreBucket (m : GenreMap) (g : String) (tmdbId : Int) : Bool :=
  m.any (fun kv => kv.1 == g && kv.2.any (fun x => x.tmdbId == tmdbId))

/-- No movie id appears on both the liked and the disliked side. -/
def ExclusivePrefs (u : PrefUser) : Prop :=
  ∀ tmdbId : Int,
    ¬(mapHasMovie u.likedMovies tmdbId = true ∧ mapHasMovie u.dislikedMovies tmdbId = true)

theorem removeMovieEverywhere_self (tmdbId : Int) (m : GenreMap) :
    mapHasMovie (removeMovieEverywhere tmdbId m) tmdbId = false := by
  simp only [mapHasMovie, removeMovieEverywhere]
  rw [List.any_eq_false]
  intro kv hkv
  obtain ⟨kv0, hkv0, rfl⟩ := List.mem_map.mp (List.mem_filter.mp hkv).1
  intro hcon
  rw [List.any_eq_true] at hcon
  obtain ⟨x, hx, hid⟩ := hcon
  have hne := (List.mem_filter.mp hx).2
  simp only [bne_iff_ne, ne_eq] at hne
  exact hne (by simpa using hid)

theorem removeMovieEverywhere_mono {tmdbId x : Int} {m : GenreMap}
    (h : mapHasMovie (removeMovieEverywhere tmdbId m) x = true) :
    mapHasMovie m x = true := by
  simp only [mapHasMovie, removeMovieEverywhere] at h ⊢
  rw [List.any_eq_true] at h ⊢
  obtain ⟨kv, hkv, hx⟩ := h
  obtain ⟨kv0, hkv0, rfl⟩ := List.mem_map.mp (List.mem_filter.mp hkv).1
  rw [List.any_eq_true] at hx
  obtain ⟨e, he, hid⟩ := hx
  exact ⟨kv0, hkv0, List.any_eq_true.mpr ⟨e, (List.mem_filter.mp he).1, hid⟩⟩

theorem upsertMovie_contains (mv : PrefMovie) (b : List PrefMovie) :
    (upsertMovie mv b).any (fun x => x.tmdbId == mv.tmdbId) = true := by
  induction b with
  | nil => simp [upsertMovie]
  | cons x xs ih =>
    simp only [upsertMovie]
    by_cases h : x.tmdbId == mv.tmdbId
    · simp [h]
    · simp only [h, Bool.false_eq_true, if_false, List.any_cons, Bool.or_eq_true]
      exact Or.inr ih

theorem upsertMovie_mem {mv x : PrefMovie} {b : List PrefMovie}
    (h : x ∈ upsertMovie mv b) : x = mv ∨ x ∈ b := by
  induction b with
  | nil => simpa [upsertMovie] using h
  | cons y ys ih =>
    simp only [upsertMovie] at h
    by_cases hy : y.tmdbId == mv.tmdbId
    · simp only [hy, if_true, List.mem_cons] at h
      rcases h with rfl | h
      · exact Or.inl rfl
      · exact Or.inr (List.mem_cons_of_mem _ h)
    · simp only [hy, Bool.false_eq_true, if_false, List.mem_cons] at h
      rcases h with rfl | h
      · exact Or.inr (List.mem_cons_self _ _)
      · rcases ih h with h | h
        · exact Or.inl h
        · exact Or.inr (List.mem_cons_of_mem _ h)

theorem addMovieToGenre_has_self (mv : PrefMovie) (m : GenreMap) (g : String) :
    inGenreBucket (addMovieToGenre mv m g) g mv.tmdbId = true := by
  simp only [addMovieToGenre]
  by_cases h : m.any (fun kv => kv.1 == g) = true
  · simp only [h, if_true, inGenreBucket, List.any_eq_true]
    obtain ⟨kv, hkv, hg⟩ := List.any_eq_true.mp h
    refine ⟨(kv.1, upsertMovie mv kv.2), List.mem_map.mpr ⟨kv, hkv, by simp [hg]⟩, ?_⟩
    simp [hg, upsertMovie_contains]
  · simp only [h, Bool.false_eq_true, if_false, inGenreBucket, List.any_eq_true]
    exact ⟨(g, [mv]), by simp, by simp⟩

theorem addMovieToGenre_preserves_self (mv : PrefMovie) {m : GenreMap} {g : String}
    (g' : String) (h : inGenreBucket m g mv.tmdbId = true) :
    inGenreBucket (addMovieToGenre mv m g') g mv.tmdbId = true := by
  simp only [inGenreBucket, List.any_eq_true] at h
  obtain ⟨kv, hkv, hp⟩ := h
  simp only [Bool.and_eq_true] at hp
  simp only [addMovieToGenre]
  by_cases hk : m.any (fun kv => kv.1 == g') = true
  · simp only [hk, if_true, inGenreBucket, List.any_eq_true]
    by_cases hgg : kv.1 == g'
    · refine ⟨(kv.1, upsertMovie mv kv.2), List.mem_map.mpr ⟨kv, hkv, by simp [hgg]⟩, ?_⟩
      simp [hp.1, upsertMovie_contains]
    · refine ⟨kv, List.mem_map.mpr ⟨kv, hkv, by simp [hgg]⟩, ?_⟩
      simp [hp.1, hp.2]
  · simp only [hk, Bool.false_eq_true, if_false, inGenreBucket, List.any_eq_true]
    exact ⟨kv, List.mem_append_left _ hkv, by simp [hp.1, hp.2]⟩

theorem foldl_addMovieToGenre_preserves (mv : PrefMovie) (gs : List String) :
    ∀ (m : GenreMap) (g : String), inGenreBucket m g mv.tmdbId = true →
    inGenreBucket (gs.foldl (addMovieToGenre mv) m) g mv.tmdbId = true := by
  induction gs with
  | nil => intro m g h; simpa using h
  | cons g1 gs1 ih =>
    intro m g h
    simp only [List.foldl_cons]
    exact ih _ g (addMovieToGenre_preserves_self mv g1 h)

theorem foldl_addMovieToGenre_has (mv : PrefMovie) (gs : List String) :
    ∀ (m : GenreMap), ∀ g ∈ gs,
    inGenreBucket (gs.foldl (addMovieToGenre mv) m) g mv.tmdbId = true := by
  induction gs with
  | nil => intro m g hg; simp at hg
  | cons g0 gs0 ih =>
    intro m g hg
    rcases List.mem_cons.mp hg with rfl | hg
    · simp only [List.foldl_cons]
      exact foldl_addMovieToGenre_preserves mv gs0 _ g (addMovieToGenre_has_self mv m g)
    · simp only [List.foldl_cons]
      exact ih _ g hg

end PreferenceStore

section ExclusivityClaims

theorem addMovieToGenre_no_new {mv : PrefMovie} {m : GenreMap} {g : String}
    {x : Int} (hx : x ≠ mv.tmdbId)
    (h : mapHasMovie (addMovieToGenre mv m g) x = true) :
    mapHasMovie m x = true := by
  simp only [addMovieToGenre] at h
  by_cases hk : m.any (fun kv => kv.1 == g) = true
  · simp only [hk, if_true] at h
    rw [mapHasMovie, List.any_eq_true] at h ⊢
    obtain ⟨kv', hkv', hany⟩ := h
    obtain ⟨kv, hkv, rfl⟩ := List.mem_map.mp hkv'
    by_cases hgg : kv.1 == g
    · simp only [hgg, if_true] at hany ⊢
      rw [List.any_eq_true] at hany
      obtain ⟨e, he, hid⟩ := hany
      rcases upsertMovie_mem he with he' | he'
      · rw [he'] at hid
        have heq : mv.tmdbId = x := by simpa using hid
        exact absurd heq.symm hx
      · exact ⟨kv, hkv, List.any_eq_true.mpr ⟨e, he', hid⟩⟩
    · simp only [hgg, Bool.false_eq_true, if_false] at hany
      exact ⟨kv, hkv, hany⟩
  · simp only [hk, Bool.false_eq_true, if_false] at h
    rw [mapHasMovie, List.any_eq_true] at h ⊢
    obtain ⟨kv, hkv, hany⟩ := h
    rcases List.mem_append.mp hkv with hkv | hkv
    · exact ⟨kv, hkv, hany⟩
    · simp only [List.mem_singleton] at hkv
      subst hkv
      rw [List.any_eq_true] at hany
      obtain ⟨e, he, hid⟩ := hany
      simp only [List.mem_singleton] at he
      rw [he] at hid
      have heq : mv.tmdbId = x := by simpa using hid
      exact absurd heq.symm hx

theorem foldl_addMovieToGenre_no_new {mv : PrefMovie} (gs : List String)
    {x : Int} (hx : x ≠ mv.tmdbId) :
    ∀ (m : GenreMap),
    mapHasMovie (gs.foldl (addMovieToGenre mv) m) x = true →
    mapHasMovie m x = true := by
  induction gs with
  | nil => intro m h; simpa using h
  | cons g0 gs0 ih =>
    intro m h
    simp only [List.foldl_cons] at h
    exact addMovieToGenre_no_new hx (ih _ h)

/-- C4: recording a liked movie removes its id from every genre bucket of
dislikedMovies and files it in the likedMovies bucket of each recognized
genre; symmetrically for a disliked movie; and both operations preserve
the invariant that no movie id appears on both sides simultaneously. -/
theorem claim_C4_liked_disliked_exclusive (u : PrefUser) (movie : InputMovie) :
    (mapHasMovie (addLikedMovie u movie).dislikedMovies movie.tmdbId = false)
    ∧ (∀ g ∈ genreNamesOf movie.genres,
        inGenreBucket (addLikedMovie u movie).likedMovies g movie.tmdbId = true)
    ∧ (ExclusivePrefs u → ExclusivePrefs (addLikedMovie u movie))
    ∧ (mapHasMovie (addDislikedMovie u movie).likedMovies movie.tmdbId = false)
    ∧ (∀ g ∈ genreNamesOf movie.genres,
        inGenreBucket (addDislikedMovie u movie).dislikedMovies g movie.tmdbId = true)
    ∧ (ExclusivePrefs u → ExclusivePrefs (addDislikedMovie u movie)) := by
  refine ⟨?_, ?_, ?_, ?_, ?_, ?_⟩
  · exact removeMovieEverywhere_self movie.tmdbId u.dislikedMovies
  · intro g hg
    exact foldl_addMovieToGenre_has _ _ u.likedMovies g hg
  · intro hex tmdbId ⟨hl, hd⟩
    by_cases hid : tmdbId = movie.tmdbId
    · subst hid
      have hfalse : mapHasMovie (addLikedMovie u movie).dislikedMovies movie.tmdbId = false :=
        removeMovieEverywhere_self movie.tmdbId u.dislikedMovies
      rw [hfalse] at hd
      exact Bool.false_ne_true hd
    · exact hex tmdbId
        ⟨foldl_addMovieToGenre_no_new _ hid _ hl, removeMovieEverywhere_mono hd⟩
  · exact removeMovieEverywhere_self movie.tmdbId u.likedMovies
  · intro g hg
    exact foldl_addMovieToGenre_has _ _ u.dislikedMovies g hg
  · intro hex tmdbId ⟨hl, hd⟩
    by_cases hid : tmdbId = movie.tmdbId
    · subst hid
      have hfalse : mapHasMovie (addDislikedMovie u movie).likedMovies movie.tmdbId = false :=
        removeMovieEverywhere_self movie.tmdbId u.likedMovies
      rw [hfalse] at hl
      exact Bool.false_ne_true hl
    · exact hex tmdbId
        ⟨removeMovieEverywhere_mono hl, foldl_addMovieToGenre_no_new _ hid _ hd⟩

/-- A concrete user for the C4 witness: one liked action movie, nothing
disliked, so the exclusivity invariant holds. -/
def witnessUserC4 : PrefUser :=
  { likedMovies := [("action", [{ tmdbId := 7, title := "Seven", genres := ["action"] }])],
    dislikedMovies := [] }

/-- A concrete movie for the C4 witness: genres given as a mixed-case
name and a numeric TMDB id (28 = action). -/
def witnessMovieC4 : InputMovie :=
  { tmdbId := 5, title := "Heat", genres := [.name "Drama", .ident 28] }

theorem witnessUserC4_exclusive : ExclusivePrefs witnessUserC4 := by
  intro tmdbId h
  simp [witnessUserC4, mapHasMovie] at h

/-- Witness for C4 at concrete inputs: after liking the movie it sits in
both recognized genre buckets of likedMovies and exclusivity still
holds; after disliking it the same holds on the disliked side. -/
theorem claim_C4_liked_disliked_exclusive_witness :
    (inGenreBucket (addLikedMovie witnessUserC4 witnessMovieC4).likedMovies
        "drama" witnessMovieC4.tmdbId = true)
    ∧ (inGenreBucket (addLikedMovie witnessUserC4 witnessMovieC4).likedMovies
        "action" witnessMovieC4.tmdbId = true)
    ∧ ExclusivePrefs (addLikedMovie witnessUserC4 witnessMovieC4)
    ∧ (inGenreBucket (addDislikedMovie witnessUserC4 witnessMovieC4).dislikedMovies
        "drama" witnessMovieC4.tmdbId = true)
    ∧ ExclusivePrefs (addDislikedMovie witnessUserC4 witnessMovieC4) :=
  ⟨(claim_C4_liked_disliked_exclusive witnessUserC4 witnessMovieC4).2.1 "drama" (by decide),
   (claim_C4_liked_disliked_exclusive witnessUserC4 witnessMovieC4).2.1 "action" (by decide),
   (claim_C4_liked_disliked_exclusive witnessUserC4 witnessMovieC4).2.2.1 witnessUserC4_exclusive,
   (claim_C4_liked_disliked_exclusive witnessUserC4 witnessMovieC4).2.2.2.2.1 "drama" (by decide),
   (claim_C4_liked_disliked_exclusive witnessUserC4 witnessMovieC4).2.2.2.2.2 witnessUserC4_exclusive⟩

end ExclusivityClaims

section RetryPolicy

/-- The failure an axios response interceptor receives: either an HTTP
response with a status code, or no response at all (network error,
connection reset, timeout — error.response is undefined). -/
inductive HttpFailure where
  | noResponse
  | status (code : Nat)
  deriving Repr, DecidableEq

/-- What the interceptor decides to do with the failed request. -/
inductive RetryAction where
  | retry (newRetryCount : Nat) (delayMs : Nat)
  | reject
  deriving Repr, DecidableEq

/-- this.maxRetries of TMDBCacheService. -/
def tmdbMaxRetries : Nat := 3

/-- this.retryDelay of TMDBCacheService, in milliseconds. -/
def tmdbRetryDelayMs : Nat := 1000

/-- The response interceptor of TMDBCacheService.createHttpClient
(src/services/tmdbCache.js lines 32-53). The guard is
config.retry < this.maxRetries && error.response?.status >= 500; when
error.response is undefined the optional chain yields undefined and the
comparison is false, so failures without a response are never retried.
On retry, config.retry is incremented first and the delay is
retryDelay * 2 ^ (config.retry - 1). -/
def tmdbOnResponseError (retryCount : Nat) (e : HttpFailure) : RetryAction :=
  let transient :=
    match e with
    | .status code => decide (500 ≤ code)
    | .noResponse => false
  if retryCount < tmdbMaxRetries && transient then
    .retry (retryCount + 1) (tmdbRetryDelayMs * 2 ^ ((retryCount + 1) - 1))
  else
    .reject

/-- C6 counterexample: the claim states that network errors, connection
resets and timeouts are retried, but a failure without an HTTP response
(the axios shape of exactly those failures) on the first attempt is
rejected immediately: the guard error.response?.status >= 500 is false
when error.response is undefined. -/
theorem claim_C6_counterexample_network_error_not_retried :
    tmdbOnResponseError 0 HttpFailure.noResponse = RetryAction.reject := rfl

/-- C6 amended: only 5xx responses are retried, up to 3 times, with
exponentially increasing delay 1000 * 2 ^ retryCount ms; failures
without a response (network errors, connection resets, timeouts) and
non-5xx responses are never retried and propagate immediately. -/
theorem claim_C6_retry_policy_amended (retryCount code : Nat) :
    (tmdbOnResponseError retryCount .noResponse = .reject)
    ∧ (code < 500 → tmdbOnResponseError retryCount (.status code) = .reject)
    ∧ (500 ≤ code → retryCount < 3 →
        tmdbOnResponseError retryCount (.status code)
          = .retry (retryCount + 1) (1000 * 2 ^ retryCount))
    ∧ (3 ≤ retryCount → tmdbOnResponseError retryCount (.status code) = .reject) := by
  refine ⟨by simp [tmdbOnResponseError], fun h => ?_, fun h5 h3 => ?_, fun h3 => ?_⟩
  · simp [tmdbOnResponseError, Nat.not_le.mpr h]
  · simp [tmdbOnResponseError, tmdbMaxRetries, tmdbRetryDelayMs, h5, h3]
  · simp [tmdbOnResponseError, tmdbMaxRetries, Nat.not_lt.mpr h3]

/-- Witness for C6 amended, at concrete inputs: 404 at attempt 0 is
rejected, 502 at attempt 0 is retried after 1000 ms, 502 at attempt 2 is
retried after 4000 ms, 502 at attempt 3 is rejected. -/
theorem claim_C6_retry_policy_amended_witness :
    (tmdbOnResponseError 0 (.status 404) = .reject)
    ∧ (tmdbOnResponseError 0 (.status 502) = .retry 1 1000)
    ∧ (tmdbOnResponseError 2 (.status 502) = .retry 3 4000)
    ∧ (tmdbOnResponseError 3 (.status 502) = .reject) :=
  ⟨(claim_C6_retry_policy_amended 0 404).2.1 (by decide),
   (claim_C6_retry_policy_amended 0 502).2.2.1 (by decide) (by decide),
   (claim_C6_retry_policy_amended 2 502).2.2.1 (by decide) (by decide),
   (claim_C6_retry_policy_amended 3 502).2.2.2 (by decide)⟩

end RetryPolicy

section CacheAside

/-- The state of the Redis backing store as the RedisManager sees it:
the connected flag maintained by the client event handlers, and the
stored serialized payloads by key. Expiry is enforced by the storage
layer and is not modelled; all reads below are within TTL. -/
structure RedisState (α : Type) where
  connected : Bool
  store : List (String × α)

/-- RedisManager.get (src/config/redis.js lines 92-105): when the client
is disconnected the read returns null immediately (and a client error is
also caught and returned as null); otherwise the stored value for the
key. -/
def redisGet {α : Type} (s : RedisState α) (key : String) : Option α :=
  if s.connected then s.store.lookup key else none

/-- RedisManager.set (src/config/redis.js lines 107-123): when the
client is disconnected the write returns false and stores nothing;
otherwise the value is stored under the key (setEx with the given TTL)
and true is returned. -/
def redisSet {α : Type} (s : RedisState α) (key : String) (v : α) (ttl : Option Nat) :
    Bool × RedisState α :=
  if s.connected then (true, { s with store := (key, v) :: s.store }) else (false, s)

/-- What one cache-fronted lookup produced: the value or error returned
to the caller, the resulting cache state, and whether the external
provider was called. -/
structure FetchResult (α : Type) where
  result : Except String α
  state : RedisState α
  providerCalled : Bool

/-- The common cache-aside shape of searchMovies, getMovieDetails,
getPopularMovies and getTrendingMovies of TMDBCacheService: try the
cache; on hit return the cached payload unchanged without calling the
provider; on miss call the provider, cache a successful response with
the operation TTL, and return it; a provider failure is re-thrown. -/
def cachedLookup {α : Type} (s : RedisState α) (key : String) (ttl : Nat)
    (provider : Except String α) : FetchResult α :=
  match redisGet s key with
  | some cached => { result := .ok cached, state := s, providerCalled := false }
  | none =>
    match provider with
    | .ok data =>
      { result := .ok data, state := (redisSet s key data (some ttl)).2,
        providerCalled := true }
    | .error e => { result := .error e, state := s, providerCalled := true }

/-- RedisManager.TTL.TMDB_SEARCH, seconds. -/
def TTL_TMDB_SEARCH : Nat := 6 * 60 * 60

/-- RedisManager.TTL.TMDB_MOVIE, seconds. -/
def TTL_TMDB_MOVIE : Nat := 24 * 60 * 60

/-- RedisManager.TTL.TMDB_POPULAR, seconds. -/
def TTL_TMDB_POPULAR : Nat := 12 * 60 * 60

/-- RedisManager.keys.tmdbSearch. The source base64-encodes
query:page; the encoding is an injective serialization of the same data
and no claim depends on its alphabet, so plain concatenation stands in
for it. -/
def tmdbSearchKey (query : String) (page : Nat) : String :=
  "tmdb:search:" ++ query ++ ":" ++ toString page

/-- RedisManager.keys.tmdbMovieCache. -/
def tmdbMovieKey (tmdbId : Int) : String :=
  "tmdb:movie:" ++ toString tmdbId

/-- RedisManager.keys.tmdbPopular applied to the genres:page string
built by getPopularMovies. -/
def tmdbPopularKey (genres : String) (page : Nat) : String :=
  "tmdb:popular:" ++ genres ++ ":" ++ toString page

/-- The inline trending key of getTrendingMovies. -/
def tmdbTrendingKey (timeWindow : String) : String :=
  "tmdb:trending:" ++ timeWindow

/-- TMDBCacheService.searchMovies (src/services/tmdbCache.js lines 59-88). -/
def searchMovies {α : Type} (s : RedisState α) (query : String) (page : Nat)
    (provider : Except String α) : FetchResult α :=
  cachedLookup s (tmdbSearchKey query page) TTL_TMDB_SEARCH provider

/-- TMDBCacheService.getMovieDetails (src/services/tmdbCache.js lines 91-122). -/
def getMovieDetails {α : Type} (s : RedisState α) (tmdbId : Int)
    (provider : Except String α) : FetchResult α :=
  cachedLookup s (tmdbMovieKey tmdbId) TTL_TMDB_MOVIE provider

/-- TMDBCacheService.getPopularMovies (src/services/tmdbCache.js lines 125-161). -/
def getPopularMovies {α : Type} (s : RedisState α) (genres : String) (page : Nat)
    (provider : Except String α) : FetchResult α :=
  cachedLookup s (tmdbPopularKey genres page) TTL_TMDB_POPULAR provider

/-- TMDBCacheService.getTrendingMovies (src/services/tmdbCache.js lines
164-190); the TTL is the inline 2 * 60 * 60. -/
def getTrendingMovies {α : Type} (s : RedisState α) (timeWindow : String)
    (provider : Except String α) : FetchResult α :=
  cachedLookup s (tmdbTrendingKey timeWindow) (2 * 60 * 60) provider

theorem cachedLookup_disconnected {α : Type} {s : RedisState α}
    (h : s.connected = false) (key : String) (ttl : Nat)
    (provider : Except String α) :
    cachedLookup s key ttl provider
      = { result := provider, state := s, providerCalled := true } := by
  cases provider with
  | ok data => simp [cachedLookup, redisGet, redisSet, h]
  | error e => simp [cachedLookup, redisGet, h]

/-- C7: with the cache backing store disconnected, every cache read
returns null (a miss, not an error), every cache write no-ops returning
false, and each of the four cache-fronted lookups returns exactly the
external provider outcome with the cache state untouched — an error can
only be the provider's own. -/
theorem claim_C7_degraded_cache {α : Type} (s : RedisState α)
    (h : s.connected = false) (key : String) (v : α) (ttl : Option Nat)
    (provider : Except String α) (query : String) (page : Nat) (tmdbId : Int)
    (genres timeWindow : String) :
    redisGet s key = none
    ∧ redisSet s key v ttl = (false, s)
    ∧ searchMovies s query page provider
        = { result := provider, state := s, providerCalled := true }
    ∧ getMovieDetails s tmdbId provider
        = { result := provider, state := s, providerCalled := true }
    ∧ getPopularMovies s genres page provider
        = { result := provider, state := s, providerCalled := true }
    ∧ getTrendingMovies s timeWindow provider
        = { result := provider, state := s, providerCalled := true } := by
  refine ⟨by simp [redisGet, h], by simp [redisSet, h],
    cachedLookup_disconnected h _ _ _, cachedLookup_disconnected h _ _ _,
    cachedLookup_disconnected h _ _ _, cachedLookup_disconnected h _ _ _⟩

/-- Witness for C7: on a concrete disconnected state, a search returns
the provider value untouched by the cache, and a provider failure
propagates as is. -/
theorem claim_C7_degraded_cache_witness :
    (searchMovies ({ connected := false, store := [] } : RedisState Nat) "dune" 1
        (Except.ok 42)
      = { result := Except.ok 42, state := { connected := false, store := [] },
          providerCalled := true })
    ∧ (getMovieDetails ({ connected := false, store := [] } : RedisState Nat) 603
        (Except.error "tmdb down")
      = { result := Except.error "tmdb down",
          state := { connected := false, store := [] }, providerCalled := true }) :=
  ⟨(claim_C7_degraded_cache ({ connected := false, store := [] } : RedisState Nat)
      rfl "k" 0 none (Except.ok 42) "dune" 1 603 "28" "week").2.2.1,
   (claim_C7_degraded_cache ({ connected := false, store := [] } : RedisState Nat)
      rfl "k" 0 none (Except.error "tmdb down") "dune" 1 603 "28" "week").2.2.2.1⟩

/-- C8: starting from a connected cache with no entry for the movie, the
first getMovieDetails call invokes the provider and caches its payload;
a second call for the same id — with any provider behaviour, since the
provider is not consulted — is served from the cache with the identical
payload and does not change the state; in general a cache hit returns
the cached payload unchanged without a provider call. -/
theorem claim_C8_cache_idempotence {α : Type} (s : RedisState α) (tmdbId : Int)
    (v : α) (hconn : s.connected = true)
    (hmiss : redisGet s (tmdbMovieKey tmdbId) = none) :
    ((getMovieDetails s tmdbId (Except.ok v)).result = Except.ok v
      ∧ (getMovieDetails s tmdbId (Except.ok v)).providerCalled = true)
    ∧ (∀ provider2 : Except String α,
        (getMovieDetails (getMovieDetails s tmdbId (Except.ok v)).state tmdbId
            provider2).result = Except.ok v
        ∧ (getMovieDetails (getMovieDetails s tmdbId (Except.ok v)).state tmdbId
            provider2).providerCalled = false
        ∧ (getMovieDetails (getMovieDetails s tmdbId (Except.ok v)).state tmdbId
            provider2).state = (getMovieDetails s tmdbId (Except.ok v)).state)
    ∧ (∀ (s' : RedisState α) (w : α) (p : Except String α),
        redisGet s' (tmdbMovieKey tmdbId) = some w →
        getMovieDetails s' tmdbId p
          = { result := Except.ok w, state := s', providerCalled := false }) := by
  have h1 : getMovieDetails s tmdbId (Except.ok v)
      = { result := Except.ok v,
          state := { s with store := (tmdbMovieKey tmdbId, v) :: s.store },
          providerCalled := true } := by
    simp [getMovieDetails, cachedLookup, hmiss, redisSet, hconn]
  have hhit : ∀ (s' : RedisState α) (w : α) (p : Except String α),
      redisGet s' (tmdbMovieKey tmdbId) = some w →
      getMovieDetails s' tmdbId p
        = { result := Except.ok w, state := s', providerCalled := false } := by
    intro s' w p hw
    simp [getMovieDetails, cachedLookup, hw]
  refine ⟨by rw [h1]; exact ⟨rfl, rfl⟩, fun provider2 => ?_, hhit⟩
  have h2 : redisGet (getMovieDetails s tmdbId (Except.ok v)).state
      (tmdbMovieKey tmdbId) = some v := by
    rw [h1]
    simp [redisGet, hconn, List.lookup]
  rw [hhit _ v provider2 h2]
  exact ⟨rfl, rfl, rfl⟩

/-- Witness for C8: on a concrete empty connected cache, the first call
for movie 603 hits the provider, the second is served from cache with
the same payload even though the provider would now fail. -/
theorem claim_C8_cache_idempotence_witness :
    ((getMovieDetails ({ connected := true, store := [] } : RedisState Nat) 603
        (Except.ok 42)).result = Except.ok 42)
    ∧ ((getMovieDetails (getMovieDetails
          ({ connected := true, store := [] } : RedisState Nat) 603
          (Except.ok 42)).state 603 (Except.error "down")).result = Except.ok 42)
    ∧ ((getMovieDetails (getMovieDetails
          ({ connected := true, store := [] } : RedisState Nat) 603
          (Except.ok 42)).state 603 (Except.error "down")).providerCalled = false) :=
  ⟨((claim_C8_cache_idempotence ({ connected := true, store := [] } : RedisState Nat)
      603 42 rfl rfl).1).1,
   ((claim_C8_cache_idempotence ({ connected := true, store := [] } : RedisState Nat)
      603 42 rfl rfl).2.1 (Except.error "down")).1,
   ((claim_C8_cache_idempotence ({ connected := true, store := [] } : RedisState Nat)
      603 42 rfl rfl).2.1 (Except.error "down")).2.1⟩

end CacheAside

section FeedbackBackfill

/-- The canonical movie shape produced by the Movie collection lookup or
by searchMovieOnTMDB (src/healthcheck.js line 924): the fields the
feedback genre bookkeeping reads. The full object also carries overview,
poster and floating-point rating data that no bookkeeping below reads;
its genres are TMDB genre names. -/
structure MovieDoc where
  tmdbId : Int
  title : String
  genres : List String
  deriving Repr, DecidableEq

/-- The backfill chain of POST /feedback (src/healthcheck.js lines
512-543): first the database lookup by id, then searchMovieOnTMDB by id,
then searchMovieOnTMDB by title; a thrown lookup error is caught and
treated as not-found (none). -/
def resolveMovieForFeedback (dbMovie byId byTitle : Option MovieDoc) :
    Option MovieDoc :=
  match dbMovie with
  | some m => some m
  | none =>
    match byId with
    | some m => some m
    | none => byTitle

/-- The movieData object assembled by POST /feedback (src/healthcheck.js
lines 545-557): tmdbId is the submitted movieId; title falls back to the
submitted title only when the resolved title is falsy (empty string);
genres come from the resolved document whenever resolution succeeded —
an array, even an empty one, is truthy in movieInDb?.genres || genres —
and from the caller only otherwise. -/
def feedbackMovieData (movieId : Int) (title : String)
    (callerGenres : List String) (resolved : Option MovieDoc) : InputMovie :=
  match resolved with
  | some m =>
    { tmdbId := movieId,
      title := if m.title = "" then title else m.title,
      genres := m.genres.map GenreInput.name }
  | none =>
    { tmdbId := movieId, title := title,
      genres := callerGenres.map GenreInput.name }

/-- The sentiment-recording step of POST /feedback: backfill first, then
addLikedMovie or addDislikedMovie on the assembled movieData. -/
def processFeedback (u : PrefUser) (movieId : Int) (title : String)
    (accepted : Bool) (callerGenres : List String)
    (dbMovie byId byTitle : Option MovieDoc) : PrefUser :=
  let resolved := resolveMovieForFeedback dbMovie byId byTitle
  let movieData := feedbackMovieData movieId title callerGenres resolved
  if accepted then addLikedMovie u movieData else addDislikedMovie u movieData

/-- C9: the feedback operation resolves canonical metadata by id first
and by title as a fallback, and whenever resolution succeeds the genres
the movie is filed under are the resolved canonical genre list, not the
caller-supplied genres; the sentiment is recorded on that backfilled
movieData. -/
theorem claim_C9_feedback_backfill (u : PrefUser) (movieId : Int)
    (title : String) (accepted : Bool) (callerGenres : List String)
    (dbMovie byId byTitle : Option MovieDoc) (m : MovieDoc)
    (hres : resolveMovieForFeedback dbMovie byId byTitle = some m) :
    (resolveMovieForFeedback (some m) byId byTitle = some m)
    ∧ (resolveMovieForFeedback none (some m) byTitle = some m)
    ∧ (resolveMovieForFeedback none none byTitle = byTitle)
    ∧ ((feedbackMovieData movieId title callerGenres
          (resolveMovieForFeedback dbMovie byId byTitle)).genres
        = m.genres.map GenreInput.name)
    ∧ (processFeedback u movieId title accepted callerGenres dbMovie byId byTitle
        = (if accepted then
            addLikedMovie u (feedbackMovieData movieId title callerGenres (some m))
          else
            addDislikedMovie u (feedbackMovieData movieId title callerGenres (some m)))) := by
  refine ⟨rfl, rfl, rfl, ?_, ?_⟩
  · rw [hres]
    rfl
  · simp only [processFeedback, hres]

/-- Witness for C9: the movie resolves only at the by-title stage, the
caller supplies a bogus genre list, and the recorded genres are the
canonical ones. -/
theorem claim_C9_feedback_backfill_witness :
    ((feedbackMovieData 603 "The Matrix" ["western"]
        (resolveMovieForFeedback none none
          (some { tmdbId := 603, title := "The Matrix",
                  genres := ["Action", "Science Fiction"] }))).genres
      = [GenreInput.name "Action", GenreInput.name "Science Fiction"])
    ∧ (processFeedback { likedMovies := [], dislikedMovies := [] } 603 "The Matrix"
        true ["western"] none none
        (some { tmdbId := 603, title := "The Matrix",
                genres := ["Action", "Science Fiction"] })
      = addLikedMovie { likedMovies := [], dislikedMovies := [] }
          (feedbackMovieData 603 "The Matrix" ["western"]
            (some { tmdbId := 603, title := "The Matrix",
                    genres := ["Action", "Science Fiction"] }))) :=
  ⟨(claim_C9_feedback_backfill { likedMovies := [], dislikedMovies := [] } 603
      "The Matrix" true ["western"] none none
      (some { tmdbId := 603, title := "The Matrix",
              genres := ["Action", "Science Fiction"] })
      { tmdbId := 603, title := "The Matrix",
        genres := ["Action", "Science Fiction"] } rfl).2.2.2.1,
   (claim_C9_feedback_backfill { likedMovies := [], dislikedMovies := [] } 603
      "The Matrix" true ["western"] none none
      (some { tmdbId := 603, title := "The Matrix",
              genres := ["Action", "Science Fiction"] })
      { tmdbId := 603, title := "The Matrix",
        genres := ["Action", "Science Fiction"] } rfl).2.2.2.2⟩

end FeedbackBackfill

section RateLimitBypass

/-- A JavaScript value, as far as the middleware guard needs: the guard
only tests presence and truthiness of a field of req.user. -/
inductive JsValue where
  | str (s : String)
  | num (n : Int)
  | boolean (b : Bool)
  | null
  | list (n : Nat)
  | object (n : Nat)

/-- JavaScript truthiness for the guard !req.user?.userId: empty string,
0, false and null are falsy; arrays and objects are always truthy. -/
def jsTruthy : JsValue → Bool
  | .str s => !(s == "")
  | .num n => !(n == 0)
  | .boolean b => b
  | .null => false
  | .list _ => true
  | .object _ => true

/-- Field access on a document: the first binding of the key, undefined
(none) when the key is absent. -/
def jsGet (fields : List (String × JsValue)) (key : String) : Option JsValue :=
  fields.lookup key

/-- The user document authMiddleware (src/middleware/auth.js lines 7-27)
attaches as req.user: a hydrated document of the user schema
(src/unnamed/part_001). Its fields are _id and the schema paths
googleId, email, name, profilePicture, preferences,
dailyRecommendations, recommendationHistory plus the timestamps; there
is no userId path. -/
def mkUserDoc (oid : Int) (googleId email nm : String)
    (profilePicture preferences dailyRecommendations recommendationHistory
      createdAt updatedAt : JsValue) : List (String × JsValue) :=
  [("_id", JsValue.num oid),
   ("googleId", JsValue.str googleId),
   ("email", JsValue.str email),
   ("name", JsValue.str nm),
   ("profilePicture", profilePicture),
   ("preferences", preferences),
   ("dailyRecommendations", dailyRecommendations),
   ("recommendationHistory", recommendationHistory),
   ("createdAt", createdAt),
   ("updatedAt", updatedAt)]

/-- The Redis rate-limit counters keyed by ratelimit:userId. -/
structure RateLimitState where
  counters : List (String × Nat)

/-- What redisRateLimit does with a request. -/
inductive RLOutcome where
  | passThrough
  | passWithHeaders (remaining : Nat)
  | limitExceeded
  deriving Repr, DecidableEq

/-- RedisManager.keys.rateLimit. -/
def rateLimitKey (userId : String) : String := "ratelimit:" ++ userId

/-- RedisManager.incr: increment the counter under the key (the window
expiry is set alongside and not modelled). -/
def redisIncr (st : RateLimitState) (key : String) : Nat × RateLimitState :=
  let current := (st.counters.lookup key).getD 0 + 1
  (current, { counters := (key, current) :: st.counters })

/-- String conversion of the userId value in the template literal of the
rate-limit key. Only str and num occur for identifier-like fields; the
remaining constructors are unreachable from the schema and get the
generic JS renderings. -/
def jsValueKeyString : JsValue → String
  | .str s => s
  | .num n => toString n
  | .boolean b => if b then "true" else "false"
  | .null => "null"
  | .list _ => ""
  | .object _ => "[object Object]"

/-- redisRateLimit (src/middleware/cache.js lines 102-134): if
req.user?.userId is falsy the middleware calls next() at once, touching
no counter; otherwise it increments ratelimit:userId and returns 429
when the count exceeds maxRequests, else passes with rate-limit
headers. -/
def redisRateLimit (maxRequests : Nat) (reqUser : Option (List (String × JsValue)))
    (st : RateLimitState) : RLOutcome × RateLimitState :=
  let userIdVal :=
    match reqUser with
    | none => none
    | some fields => jsGet fields "userId"
  match userIdVal with
  | none => (.passThrough, st)
  | some v =>
    if jsTruthy v then
      let step := redisIncr st (rateLimitKey (jsValueKeyString v))
      if maxRequests < step.1 then
        (.limitExceeded, step.2)
      else
        (.passWithHeaders (maxRequests - step.1), step.2)
    else
      (.passThrough, st)

/-- C10: for every request whose req.user is the user document attached
by authMiddleware — which carries _id and the schema paths but no userId
field — redisRateLimit passes the request through untouched: no counter
is read or incremented, no headers are set, and the 429 branch is
unreachable; the daily ceiling is enforced only by checkDailyLimit on
the user document. -/
theorem claim_C10_redisRateLimit_bypassed (maxRequests : Nat) (oid : Int)
    (googleId email nm : String)
    (profilePicture preferences dailyRecommendations recommendationHistory
      createdAt updatedAt : JsValue) (st : RateLimitState) :
    redisRateLimit maxRequests
      (some (mkUserDoc oid googleId email nm profilePicture preferences
        dailyRecommendations recommendationHistory createdAt updatedAt)) st
      = (RLOutcome.passThrough, st) := rfl

end RateLimitBypass
